import Mathlib

/-!
# Verification of the SiteScout CRM backend (`src/main.py`)

Shallow embedding of the lead-scouting / audit / email-verification backend.
The Python source is embedded as executable Lean definitions:

* Python strings are Lean `String` / `List Char`; `str.lower`, `str.upper`,
  `str.capitalize`, `str.strip`, single-character `str.replace` are modelled
  by explicit character maps (ASCII case mapping, as CPython does for the
  ASCII range that this program's data lives in).
* `hashlib.md5` is implemented in full (RFC 1321) over UTF-8 byte lists,
  with machine words as `Nat` reduced `% 2^32`.
* The process-wide Mersenne-Twister generator of `random` is modelled as a
  deterministic state machine on `Nat`: `random.seed(s)` replaces the state
  by a deterministic function of the seed string's bytes, and each primitive
  (`choice`, `random`, `uniform`, `randint`) consumes one deterministic step.
  Every claim proved about the synthetic scout quantifies over the incoming
  generator state, so no theorem depends on the particular mixing constants.
* Python's builtin `hash(str)` (per-session randomized, fixed within one
  process) is a `String → Int` parameter over which the theorems quantify.
* The generative-model client is an oracle parameter: for scouting, the
  outcome of `model.generate_content` + `json.loads` (either an exception or
  a parsed list of JSON items, where an item may itself be one whose
  per-item processing raises); for the audit, a map from attempt number to
  outcome. Fallible paths return `Option`.
-/

/-- ASCII lower-casing of one character, as CPython's `str.lower` acts on the
ASCII range (other characters are left unchanged). -/
def pyToLower (c : Char) : Char :=
  match c with
  | 'A' => 'a' | 'B' => 'b' | 'C' => 'c' | 'D' => 'd' | 'E' => 'e' | 'F' => 'f'
  | 'G' => 'g' | 'H' => 'h' | 'I' => 'i' | 'J' => 'j' | 'K' => 'k' | 'L' => 'l'
  | 'M' => 'm' | 'N' => 'n' | 'O' => 'o' | 'P' => 'p' | 'Q' => 'q' | 'R' => 'r'
  | 'S' => 's' | 'T' => 't' | 'U' => 'u' | 'V' => 'v' | 'W' => 'w' | 'X' => 'x'
  | 'Y' => 'y' | 'Z' => 'z'
  | _ => c

/-- ASCII upper-casing of one character, as CPython's `str.upper` acts on the
ASCII range (other characters are left unchanged). -/
def pyToUpper (c : Char) : Char :=
  match c with
  | 'a' => 'A' | 'b' => 'B' | 'c' => 'C' | 'd' => 'D' | 'e' => 'E' | 'f' => 'F'
  | 'g' => 'G' | 'h' => 'H' | 'i' => 'I' | 'j' => 'J' | 'k' => 'K' | 'l' => 'L'
  | 'm' => 'M' | 'n' => 'N' | 'o' => 'O' | 'p' => 'P' | 'q' => 'Q' | 'r' => 'R'
  | 's' => 'S' | 't' => 'T' | 'u' => 'U' | 'v' => 'V' | 'w' => 'W' | 'x' => 'X'
  | 'y' => 'Y' | 'z' => 'Z'
  | _ => c

/-- `s.lower()` on a whole string. -/
def pyLowerS (s : String) : String := ⟨s.data.map pyToLower⟩

/-- `s.upper()` on a whole string. -/
def pyUpperS (s : String) : String := ⟨s.data.map pyToUpper⟩

/-- `s.capitalize()`: first character upper-cased, the rest lower-cased. -/
def pyCapitalize (s : String) : String :=
  match s.data with
  | [] => ⟨[]⟩
  | c :: cs => ⟨pyToUpper c :: cs.map pyToLower⟩

/-- The characters removed by Python's `str.strip()` that can occur here
(ASCII whitespace: space, tab, newline, carriage return, vertical tab,
form feed). -/
def isPySpace (c : Char) : Bool :=
  c == ' ' || c == '\t' || c == '\n' || c == '\x0d' || c == '\x0b' || c == '\x0c'

/-- `s.strip()`: drop whitespace from both ends. -/
def stripChars (l : List Char) : List Char :=
  ((l.dropWhile isPySpace).reverse.dropWhile isPySpace).reverse

/-- The normalization performed by the email verifier:
`email.lower().strip()`. -/
def pyNormalize (l : List Char) : List Char :=
  stripChars (l.map pyToLower)

/-- Python's `s.replace(c, r)` for a single-character pattern `c` (the only
form the program uses: `name.replace(" ", "")` and `name.replace(" ", "+")`). -/
def replaceS (s : String) (c : Char) (r : String) : String :=
  ⟨s.data.flatMap (fun x => if x == c then r.data else [x])⟩

/-- UTF-8 encoding of one character (Python's `str.encode()`). -/
def utf8EncChar (c : Char) : List Nat :=
  let n := c.toNat
  if n < 128 then [n]
  else if n < 2048 then [192 + n / 64, 128 + n % 64]
  else if n < 65536 then [224 + n / 4096, 128 + (n / 64) % 64, 128 + n % 64]
  else [240 + n / 262144, 128 + (n / 4096) % 64, 128 + (n / 64) % 64, 128 + n % 64]

/-- UTF-8 encoding of a character list as a byte list. -/
def utf8Enc (l : List Char) : List Nat := l.flatMap utf8EncChar

/-- UTF-8 bytes of a string (`s.encode()` in the source). -/
def utf8Bytes (s : String) : List Nat := utf8Enc s.data

/-- Does `pat` occur at the head of the list? (helper for substring tests) -/
def leadMatch : List Char → List Char → Bool
  | [], _ => true
  | _ :: _, [] => false
  | p :: ps, c :: cs => p == c && leadMatch ps cs

/-- Python's `pat in s` substring test on strings. -/
def hasSub (pat : List Char) : List Char → Bool
  | [] => pat.isEmpty
  | c :: cs => leadMatch pat (c :: cs) || hasSub pat cs

/-! ## MD5 (RFC 1321), as used by `hashlib.md5` in the source -/

/-- The 64 MD5 sine-derived constants. -/
def md5K : List Nat :=
  [0xd76aa478, 0xe8c7b756, 0x242070db, 0xc1bdceee,
   0xf57c0faf, 0x4787c62a, 0xa8304613, 0xfd469501,
   0x698098d8, 0x8b44f7af, 0xffff5bb1, 0x895cd7be,
   0x6b901122, 0xfd987193, 0xa679438e, 0x49b40821,
   0xf61e2562, 0xc040b340, 0x265e5a51, 0xe9b6c7aa,
   0xd62f105d, 0x02441453, 0xd8a1e681, 0xe7d3fbc8,
   0x21e1cde6, 0xc33707d6, 0xf4d50d87, 0x455a14ed,
   0xa9e3e905, 0xfcefa3f8, 0x676f02d9, 0x8d2a4c8a,
   0xfffa3942, 0x8771f681, 0x6d9d6122, 0xfde5380c,
   0xa4beea44, 0x4bdecfa9, 0xf6bb4b60, 0xbebfbc70,
   0x289b7ec6, 0xeaa127fa, 0xd4ef3085, 0x04881d05,
   0xd9d4d039, 0xe6db99e5, 0x1fa27cf8, 0xc4ac5665,
   0xf4292244, 0x432aff97, 0xab9423a7, 0xfc93a039,
   0x655b59c3, 0x8f0ccc92, 0xffeff47d, 0x85845dd1,
   0x6fa87e4f, 0xfe2ce6e0, 0xa3014314, 0x4e0811a1,
   0xf7537e82, 0xbd3af235, 0x2ad7d2bb, 0xeb86d391]

/-- The 64 MD5 per-round left-rotation amounts. -/
def md5S : List Nat :=
  [7, 12, 17, 22, 7, 12, 17, 22, 7, 12, 17, 22, 7, 12, 17, 22,
   5, 9, 14, 20, 5, 9, 14, 20, 5, 9, 14, 20, 5, 9, 14, 20,
   4, 11, 16, 23, 4, 11, 16, 23, 4, 11, 16, 23, 4, 11, 16, 23,
   6, 10, 15, 21, 6, 10, 15, 21, 6, 10, 15, 21, 6, 10, 15, 21]

/-- 32-bit left rotation. -/
def leftrot (x n : Nat) : Nat :=
  ((x <<< n) ||| (x >>> (32 - n))) % 4294967296

/-- MD5 auxiliary function F. -/
def md5F (b c d : Nat) : Nat := (b &&& c) ||| ((b ^^^ 0xffffffff) &&& d)

/-- MD5 auxiliary function G. -/
def md5G (b c d : Nat) : Nat := (d &&& b) ||| ((d ^^^ 0xffffffff) &&& c)

/-- MD5 auxiliary function H. -/
def md5H (b c d : Nat) : Nat := b ^^^ c ^^^ d

/-- MD5 auxiliary function I. -/
def md5I (b c d : Nat) : Nat := c ^^^ (b ||| (d ^^^ 0xffffffff))

/-- `n` little-endian bytes of `v`. -/
def leBytes : Nat → Nat → List Nat
  | 0, _ => []
  | n + 1, v => (v % 256) :: leBytes n (v / 256)

/-- MD5 padding: append `0x80`, zero bytes up to 56 mod 64, then the 64-bit
little-endian bit length. -/
def md5Pad (msg : List Nat) : List Nat :=
  let k := (120 - ((msg.length + 1) % 64)) % 64
  msg ++ [128] ++ List.replicate k 0 ++ leBytes 8 ((8 * msg.length) % 18446744073709551616)

/-- Split a list into 64-byte chunks (fuel-driven; called with enough fuel). -/
def chunks64 : Nat → List Nat → List (List Nat)
  | 0, _ => []
  | _, [] => []
  | f + 1, l => l.take 64 :: chunks64 f (l.drop 64)

/-- The sixteen 32-bit little-endian words of one 64-byte chunk. -/
def chunkWords (c : List Nat) : List Nat :=
  (List.range 16).map (fun i =>
    c.getD (4 * i) 0 + 256 * c.getD (4 * i + 1) 0 +
    65536 * c.getD (4 * i + 2) 0 + 16777216 * c.getD (4 * i + 3) 0)

/-- One of the 64 MD5 rounds. -/
def md5Round (m : List Nat) (st : Nat × Nat × Nat × Nat) (i : Nat) :
    Nat × Nat × Nat × Nat :=
  let a := st.1
  let b := st.2.1
  let c := st.2.2.1
  let d := st.2.2.2
  let f := if i < 16 then md5F b c d
           else if i < 32 then md5G b c d
           else if i < 48 then md5H b c d
           else md5I b c d
  let gIdx := if i < 16 then i
              else if i < 32 then (5 * i + 1) % 16
              else if i < 48 then (3 * i + 5) % 16
              else (7 * i) % 16
  let tmp := (f + a + md5K.getD i 0 + m.getD gIdx 0) % 4294967296
  (d, (b + leftrot tmp (md5S.getD i 0)) % 4294967296, b, c)

/-- Process one 64-byte chunk, updating the four MD5 state words. -/
def md5ProcessChunk (st : Nat × Nat × Nat × Nat) (c : List Nat) :
    Nat × Nat × Nat × Nat :=
  let m := chunkWords c
  let r := (List.range 64).foldl (md5Round m) st
  ((st.1 + r.1) % 4294967296, (st.2.1 + r.2.1) % 4294967296,
   (st.2.2.1 + r.2.2.1) % 4294967296, (st.2.2.2 + r.2.2.2) % 4294967296)

/-- The 16-byte MD5 digest of a byte list. -/
def md5Digest (msg : List Nat) : List Nat :=
  let padded := md5Pad msg
  let st := (chunks64 padded.length padded).foldl md5ProcessChunk
    (0x67452301, 0xefcdab89, 0x98badcfe, 0x10325476)
  leBytes 4 st.1 ++ leBytes 4 st.2.1 ++ leBytes 4 st.2.2.1 ++ leBytes 4 st.2.2.2

/-- One lowercase hex character for a value below 16. -/
def hexChar (n : Nat) : Char :=
  match n with
  | 0 => '0' | 1 => '1' | 2 => '2' | 3 => '3' | 4 => '4'
  | 5 => '5' | 6 => '6' | 7 => '7' | 8 => '8' | 9 => '9'
  | 10 => 'a' | 11 => 'b' | 12 => 'c' | 13 => 'd' | 14 => 'e'
  | _ => 'f'

/-- The character list of `md5(..).hexdigest()`. -/
def md5hexChars (msg : List Nat) : List Char :=
  (md5Digest msg).flatMap (fun b => [hexChar (b / 16), hexChar (b % 16)])

/-- `md5(..).hexdigest()` as a string. -/
def md5hex (msg : List Nat) : String := ⟨md5hexChars msg⟩

/-- `int(md5(..).hexdigest(), 16)`: the digest bytes read as a big-endian
natural number. -/
def md5int (msg : List Nat) : Nat :=
  (md5Digest msg).foldl (fun a b => a * 256 + b) 0

/-! ## The process-wide pseudo-random generator (`random` module)

The source reseeds the module generator at the top of `mock_scout_service`
(`random.seed(f"{industry}{location}{page}")`) and then draws from it.  We
model the generator state as a `Nat`, with a deterministic mixing step; every
theorem below quantifies over the incoming state, so nothing depends on the
particular constants — only on (a) reseeding being a deterministic function
of the arguments, and (b) each draw being a deterministic function of the
state. -/

/-- One step of the modelled generator (a 64-bit linear-congruential mix
standing in for the Mersenne Twister's next output). -/
def rngNext (g : Nat) : Nat :=
  (6364136223846793005 * g + 1442695040888963407) % 18446744073709551616

/-- `random.seed(s)` for a string seed: a deterministic function of the
string's UTF-8 bytes. -/
def seedOfString (s : String) : Nat :=
  (utf8Bytes s).foldl (fun a b => (a * 131 + b + 1) % 18446744073709551616) 5381

/-- `random._randbelow(n)`: a draw below `n`, advancing the state. -/
def pyRandbelow (n : Nat) (g : Nat) : Nat × Nat :=
  (rngNext g % n, rngNext g)

/-- `random.choice(l)` on a list of strings (the source only calls it on
non-empty literal lists). -/
def pyChoice (l : List String) (g : Nat) : String × Nat :=
  (l.getD (pyRandbelow l.length g).1 "", (pyRandbelow l.length g).2)

/-- `random.random()`: a rational in `[0, 1)` (53 random bits over `2^53`),
advancing the state. -/
def pyRandom (g : Nat) : ℚ × Nat :=
  ((rngNext g % 9007199254740992 : ℕ) / (9007199254740992 : ℚ), rngNext g)

/-- `random.uniform(a, b) = a + (b - a) * random.random()`. -/
def pyUniform (a b : ℚ) (g : Nat) : ℚ × Nat :=
  (a + (b - a) * (pyRandom g).1, (pyRandom g).2)

/-- `random.randint(a, b)`: an integer in `[a, b]`, advancing the state. -/
def pyRandint (a b : Int) (g : Nat) : Int × Nat :=
  (a + ((rngNext g % (b - a + 1).toNat : ℕ) : Int), rngNext g)

/-- The per-profile website-presence draw:
`random.choice([True, False, False, False, False])` — `true` exactly when the
drawn index is 0 (the position of the single `True`). -/
def hasSiteChoice (g : Nat) : Bool × Nat :=
  ((pyRandbelow 5 g).1 == 0, (pyRandbelow 5 g).2)

/-- `round(x, 1)` on the rational model of the float: round to one decimal
place, ties to even (CPython's `round`). -/
def pyRound1 (x : ℚ) : ℚ :=
  let n : ℤ := ⌊x * 10⌋
  let m : ℤ :=
    if 1 / 2 < x * 10 - n ∨ (x * 10 - n = 1 / 2 ∧ ¬ 2 ∣ n) then n + 1 else n
  (m : ℚ) / 10

/-! ## Data model (`pydantic` schemas) -/

/-- `BusinessProfile` of `src/main.py` (`social_media` is the dict in
insertion order; `ℚ` models the `float` rating). -/
structure BusinessProfile where
  id : String
  name : String
  industry : String
  location : String
  website : Option String
  phone : String
  email : Option String
  social_media : List (String × String)
  source_url : Option String
  rating : Option ℚ
  review_count : Option Int
deriving DecidableEq, Repr

/-- `AnalysisResult` of `src/main.py`. -/
structure AnalysisResult where
  audit_score : Int
  pain_points : List String
  improvements : List String
  outreach_message : String
deriving DecidableEq, Repr

/-! ## `mock_scout_service` -/

/-- The `base_names` literal of `mock_scout_service`. -/
def base_names : List String :=
  ["Apex", "Elite", "Prime", "Cornerstone", "Trusted", "Summit", "Vanguard",
   "Pinnacle", "NextLevel", "Local"]

/-- The `suffixes` literal of `mock_scout_service`. -/
def name_suffixes : List String :=
  ["Solutions", "Services", "Inc", "Co", "Group", "Partners", "Associates", "Pros"]

/-- One iteration of the `for i in range(10)` loop of `mock_scout_service`,
threading the generator state.  `pyhash` is the session's builtin string
`hash` (per-session randomized, fixed within one process). -/
def mockProfile (pyhash : String → Int) (industry location : String)
    (page : Int) (g0 : Nat) : BusinessProfile × Nat :=
  let d1 := hasSiteChoice g0
  let has_site := d1.1
  let d2 := pyChoice base_names d1.2
  let base := d2.1
  let d3 := pyChoice name_suffixes d2.2
  let sfx := d3.1
  let name0 := base ++ " " ++ pyCapitalize industry ++ " " ++ sfx
  let name := if page > 1 then name0 ++ " " ++ toString page else name0
  let sanitized := pyLowerS (replaceS name ' ' "")
  let email :=
    if has_site then "contact@" ++ pyLowerS base ++ pyLowerS industry ++ ".com"
    else sanitized ++ "@gmail.com"
  let d4 := pyRandom d3.2
  let socials1 : List (String × String) :=
    if d4.1 > 3 / 10 then [("linkedin", "https://linkedin.com/company/" ++ sanitized)] else []
  let d5 := pyRandom d4.2
  let socials2 := socials1 ++
    (if d5.1 > 6 / 10 then [("twitter", "https://twitter.com/" ++ sanitized)] else [])
  let d6 := pyRandom d5.2
  let socials := socials2 ++
    (if d6.1 > 6 / 10 then [("facebook", "https://facebook.com/" ++ sanitized)] else [])
  let source_url := "https://www.google.com/search?q=" ++ replaceS name ' ' "+"
    ++ "+" ++ replaceS location ' ' "+"
  let d7 := pyUniform (7 / 2) (49 / 10) d6.2
  let rating := pyRound1 d7.1
  let d8 := pyRandint 10 500 d7.2
  let d9 := pyRandint 100 999 d8.2
  let d10 := pyRandint 1000 9999 d9.2
  let phone := "(555) " ++ toString d9.1 ++ "-" ++ toString d10.1
  (⟨"biz_" ++ toString (pyhash name), name, industry, location,
    if has_site then some ("www." ++ pyLowerS base ++ pyLowerS industry ++ ".com") else none,
    phone, some email, socials, some source_url, some rating, some d8.1⟩, d10.2)

/-- `n` iterations of the loop body, threading the generator state. -/
def mockN (pyhash : String → Int) (industry location : String) (page : Int) :
    Nat → Nat → List BusinessProfile × Nat
  | 0, g => ([], g)
  | n + 1, g =>
    let pg := mockProfile pyhash industry location page g
    let rest := mockN pyhash industry location page n pg.2
    (pg.1 :: rest.1, rest.2)

/-- `mock_scout_service(industry, location, page)`.  The incoming generator
state `g0` (the process-wide `random` state at call time) is discarded by
`random.seed(f"{industry}{location}{page}")`; the `time.sleep(1.0)` has no
modelled effect.  Returns the result list and the generator state left
behind. -/
def mock_scout_service (pyhash : String → Int) (industry location : String)
    (page : Int) (g0 : Nat) : List BusinessProfile × Nat :=
  mockN pyhash industry location page 10
    (seedOfString (industry ++ location ++ toString page))

/-! ## `ai_scout_service` -/

/-- One JSON object of the parsed model response, with the keys the code
reads via `item.get`; `none` stands for an absent key or a JSON `null`. -/
structure ScoutItem where
  name : Option String
  industry : Option String
  location : Option String
  website : Option String
  phone : Option String
  email : Option String
  rating : Option ℚ
  review_count : Option Int
deriving DecidableEq, Repr

/-- One element of the parsed JSON array: either an object of the expected
shape, or an element whose per-item processing raises (a non-object element,
a wrongly-typed `name`, …). -/
inductive JsonElem where
  | ok (it : ScoutItem)
  | bad (msg : String)
deriving DecidableEq, Repr

/-- Is the element processable without raising? -/
def isOkElem : JsonElem → Bool
  | .ok _ => true
  | .bad _ => false

/-- Outcome of `model.generate_content` followed by `json.loads`: an
exception (network failure, non-JSON text, …) or a parsed array. -/
inductive ModelScoutResult where
  | error (msg : String)
  | parsed (data : List JsonElem)

/-- The per-item body of the `for item in data` loop of `ai_scout_service`:
the id is the md5 of `item.get('name', '')` (first 10 hex digits) while the
displayed name is `item.get('name', 'Unknown')`. -/
def processItem (industry location : String) (it : ScoutItem) : BusinessProfile :=
  let item_id := "biz_" ++ (⟨(md5hexChars (utf8Bytes (it.name.getD ""))).take 10⟩ : String)
  let name := it.name.getD "Unknown"
  let source_url := "https://www.google.com/search?q=" ++ replaceS name ' ' "+"
    ++ "+" ++ replaceS location ' ' "+"
  let sanitized := pyLowerS (replaceS name ' ' "")
  ⟨item_id, name, it.industry.getD industry, it.location.getD location,
   it.website, it.phone.getD "N/A", it.email,
   [("linkedin", "https://linkedin.com/company/" ++ sanitized),
    ("twitter", "https://twitter.com/" ++ sanitized)],
   some source_url, it.rating, it.review_count⟩

/-- `ai_scout_service(industry, location, page)`.  `modelConfigured` is
`model is not None`; `mr` is the oracle outcome of the model call + JSON
parse.  A raised exception anywhere in the `try` block (model call, parse,
or any per-item processing) discards all partial results and falls back to
`mock_scout_service` with the same arguments; on the success path the
process-wide generator state is untouched. -/
def ai_scout_service (pyhash : String → Int) (modelConfigured : Bool)
    (mr : ModelScoutResult) (industry location : String) (page : Int)
    (g0 : Nat) : List BusinessProfile × Nat :=
  if !modelConfigured then mock_scout_service pyhash industry location page g0
  else
    match mr with
    | .error _ => mock_scout_service pyhash industry location page g0
    | .parsed data =>
      if data.all isOkElem then
        (data.filterMap (fun e => match e with
          | .ok it => some (processItem industry location it)
          | .bad _ => none), g0)
      else mock_scout_service pyhash industry location page g0

/-! ## `generate_audit_and_message` -/

/-- The fallback result returned when no model client is configured. -/
def no_key_result : AnalysisResult :=
  ⟨45,
   ["No API Key Detected", "Cannot analyze real data", "Please set GEMINI_API_KEY"],
   ["Add API Key to backend", "Restart server"],
   "System Error: Please configure the AI backend."⟩

/-- The terminal result after the final rate-limited attempt. -/
def rate_limit_result : AnalysisResult :=
  ⟨0, ["Rate Limit Hit"], ["Wait 60 seconds", "Try again"],
   "Google Gemini API Rate Limit Exceeded. Please wait a minute and try again."⟩

/-- The terminal result for a non-rate-limit error. -/
def ai_error_result : AnalysisResult :=
  ⟨0, ["AI Error"], ["Check console logs"], "Error generating message."⟩

/-- `max_retries = 3` of the source. -/
def max_retries : Nat := 3

/-- `retry_delay = 60` of the source. -/
def retry_delay : Nat := 60

/-- The rate-limit test `"429" in str(e) or "Quota exceeded" in str(e)`. -/
def isRateLimitMsg (e : String) : Bool :=
  hasSub "429".data e.data || hasSub "Quota exceeded".data e.data

/-- Outcome of one audit attempt (`model.generate_content` + `json.loads`):
a parsed result (returned directly, unvalidated) or an exception message. -/
inductive AuditAttempt where
  | ok (r : AnalysisResult)
  | error (msg : String)

/-- Observable trace of one `generate_audit_and_message` call: the returned
result, the list of sleep durations performed, and the number of model
attempts made. -/
structure AuditTrace where
  result : AnalysisResult
  sleeps : List Nat
  calls : Nat
deriving DecidableEq, Repr

/-- The `for attempt in range(max_retries)` loop.  `fuel` is the number of
loop iterations remaining (entered with `max_retries`); falling off the end
of the loop would return Python's implicit `None`, modelled as `none`
(unreachable from the entry point). -/
def auditLoop (attempts : Nat → AuditAttempt) :
    Nat → Nat → List Nat → Nat → Option AuditTrace
  | 0, _, _, _ => none
  | fuel + 1, attempt, sleeps, calls =>
    match attempts attempt with
    | .ok r => some ⟨r, sleeps, calls + 1⟩
    | .error e =>
      if isRateLimitMsg e then
        if attempt < max_retries - 1 then
          auditLoop attempts fuel (attempt + 1) (sleeps ++ [retry_delay]) (calls + 1)
        else some ⟨rate_limit_result, sleeps, calls + 1⟩
      else some ⟨ai_error_result, sleeps, calls + 1⟩

/-- `generate_audit_and_message(data)`.  `modelConfigured` is
`model is not None`; `attempts` maps the attempt number to that attempt's
outcome.  (The request data only shapes the prompt text, which no claim
depends on.) -/
def generate_audit_and_message (modelConfigured : Bool)
    (attempts : Nat → AuditAttempt) : Option AuditTrace :=
  if modelConfigured then auditLoop attempts max_retries 0 [] 0
  else some ⟨no_key_result, [], 0⟩

/-! ## `verify_email` -/

/-- `verify_email`: lowercase, strip, md5, invalid iff the hash is divisible
by 5 (the `time.sleep(0.5)` has no modelled effect). -/
def verify_email (email : String) : String :=
  if md5int (utf8Enc (pyNormalize email.data)) % 5 = 0 then "invalid" else "valid"

/-! ## Helper lemmas -/

/-- `random.random()` lands in `[0, 1)`. -/
theorem pyRandom_mem (g : Nat) : 0 ≤ (pyRandom g).1 ∧ (pyRandom g).1 < 1 := by
  constructor
  · exact div_nonneg (by positivity) (by norm_num)
  · rw [pyRandom, div_lt_one (by norm_num)]
    have h : rngNext g % 9007199254740992 < 9007199254740992 :=
      Nat.mod_lt _ (by norm_num)
    exact_mod_cast h

/-- `random.uniform(3.5, 4.9)` lands in `[3.5, 4.9)`. -/
theorem pyUniform_mem (g : Nat) :
    7 / 2 ≤ (pyUniform (7 / 2) (49 / 10) g).1 ∧
    (pyUniform (7 / 2) (49 / 10) g).1 < 49 / 10 := by
  obtain ⟨h0, h1⟩ := pyRandom_mem g
  rw [pyUniform]
  constructor
  · nlinarith
  · nlinarith

/-- Rounding to one decimal keeps a value of `[3.5, 4.9)` inside
`[3.5, 4.9]`. -/
theorem pyRound1_mem (x : ℚ) (h1 : 7 / 2 ≤ x) (h2 : x < 49 / 10) :
    7 / 2 ≤ pyRound1 x ∧ pyRound1 x ≤ 49 / 10 := by
  rw [pyRound1]
  have hn1 : (35 : ℤ) ≤ ⌊x * 10⌋ := by
    apply Int.le_floor.2
    push_cast
    linarith
  have hn2 : ⌊x * 10⌋ < 49 := by
    apply Int.floor_lt.2
    push_cast
    linarith
  have c1 : (35 : ℚ) ≤ (⌊x * 10⌋ : ℚ) := by exact_mod_cast hn1
  have c2 : ((⌊x * 10⌋ : ℚ)) ≤ 48 := by exact_mod_cast (by omega : ⌊x * 10⌋ ≤ 48)
  split
  · constructor <;> (push_cast; linarith)
  · constructor <;> linarith

/-- `random.randint(a, b)` lands in `[a, b]`. -/
theorem pyRandint_mem (a b : Int) (g : Nat) (h : a ≤ b) :
    a ≤ (pyRandint a b g).1 ∧ (pyRandint a b g).1 ≤ b := by
  rw [pyRandint]
  have hpos : (0 : Nat) < (b - a + 1).toNat := by omega
  have hlt : rngNext g % (b - a + 1).toNat < (b - a + 1).toNat := Nat.mod_lt _ hpos
  omega

/-- Field-level facts about one synthetic profile, for an arbitrary incoming
generator state: the always-present fields, the rating and review-count
bounds, the website-null characterization, and the id's derivation from the
name. -/
theorem mockProfile_spec (pyhash : String → Int) (industry location : String)
    (page : Int) (g : Nat) :
    (mockProfile pyhash industry location page g).1.email.isSome = true ∧
    (mockProfile pyhash industry location page g).1.source_url.isSome = true ∧
    (∃ r, (mockProfile pyhash industry location page g).1.rating = some r ∧
      7 / 2 ≤ r ∧ r ≤ 49 / 10) ∧
    (∃ c, (mockProfile pyhash industry location page g).1.review_count = some c ∧
      10 ≤ c ∧ c ≤ 500) ∧
    ((mockProfile pyhash industry location page g).1.website = none ↔
      (hasSiteChoice g).1 = false) ∧
    (mockProfile pyhash industry location page g).1.id =
      "biz_" ++ toString (pyhash (mockProfile pyhash industry location page g).1.name) := by
  refine ⟨rfl, rfl, ?_, ?_, ?_, rfl⟩
  · refine ⟨_, rfl, ?_⟩
    exact pyRound1_mem _ (pyUniform_mem _).1 (pyUniform_mem _).2
  · refine ⟨_, rfl, ?_⟩
    exact pyRandint_mem 10 500 _ (by norm_num)
  · simp only [mockProfile]
    cases h : (hasSiteChoice g).1 <;> simp [h]

/-- `mockN` produces exactly `n` profiles. -/
theorem mockN_length (pyhash : String → Int) (industry location : String)
    (page : Int) : ∀ n g, (mockN pyhash industry location page n g).1.length = n := by
  intro n
  induction n with
  | zero => intro g; rfl
  | succ n ih => intro g; simp [mockN, ih]

/-- Every member of a `mockN` run is one loop iteration's profile at some
generator state. -/
theorem mockN_mem (pyhash : String → Int) (industry location : String)
    (page : Int) : ∀ n g p, p ∈ (mockN pyhash industry location page n g).1 →
    ∃ g', p = (mockProfile pyhash industry location page g').1 := by
  intro n
  induction n with
  | zero => intro g p h; simp [mockN] at h
  | succ n ih =>
    intro g p h
    simp only [mockN, List.mem_cons] at h
    rcases h with h | h
    · exact ⟨g, h⟩
    · exact ih _ p h

/-! ## Claims -/

/-- C2: for every `(industry, location, page)` triple, two invocations of
`mock_scout_service` with identical arguments within the same process
session — i.e. with the second call receiving whatever generator state the
first call left behind, or indeed any two generator states — produce
identical output lists (hence the same names, ids, emails, websites, social
links, phone numbers, ratings and review counts, in the same order).  This
holds because `random.seed(f"{industry}{location}{page}")` replaces the
process-wide generator state by a function of the arguments alone. -/
theorem C2_mock_determinism (pyhash : String → Int) (industry location : String)
    (page : Int) :
    (∀ g0, (mock_scout_service pyhash industry location page
        ((mock_scout_service pyhash industry location page g0).2)).1 =
      (mock_scout_service pyhash industry location page g0).1) ∧
    (∀ g1 g2, (mock_scout_service pyhash industry location page g1).1 =
      (mock_scout_service pyhash industry location page g2).1) := by
  constructor
  · intro g0
    simp only [mock_scout_service]
  · intro g1 g2
    simp only [mock_scout_service]

/-- C3: if the model call / JSON parse raises (`ModelScoutResult.error`) or
any per-item processing raises (some parsed element is `bad`), then
`ai_scout_service` returns exactly `mock_scout_service` on the same
arguments; no partial results survive, and — the Lean embedding being a
total function — no exception propagates to the caller. -/
theorem C3_ai_scout_fallback (pyhash : String → Int) (mr : ModelScoutResult)
    (industry location : String) (page : Int) (g0 : Nat)
    (h : (∃ msg, mr = .error msg) ∨
      (∃ data, mr = .parsed data ∧ ∃ e ∈ data, isOkElem e = false)) :
    ai_scout_service pyhash true mr industry location page g0 =
      mock_scout_service pyhash industry location page g0 := by
  rcases h with ⟨msg, rfl⟩ | ⟨data, rfl, e, he, hbad⟩
  · rfl
  · have hall : data.all isOkElem = false :=
      List.all_eq_false.2 ⟨e, he, by simp [hbad]⟩
    simp [ai_scout_service, hall]

/-- Witness for C3 at a concrete throwing model client. -/
theorem C3_witness :
    ai_scout_service (fun _ => 0) true (.error "network down") "plumbing"
      "Austin, TX" 1 0 =
    mock_scout_service (fun _ => 0) "plumbing" "Austin, TX" 1 0 :=
  C3_ai_scout_fallback (fun _ => 0) (.error "network down") "plumbing"
    "Austin, TX" 1 0 (Or.inl ⟨"network down", rfl⟩)

/-- C4: the synthetic variant returns exactly 10 profiles, each with a
rating in `[3.5, 4.9]` and a review count in `[10, 500]`. -/
theorem C4_mock_count_and_bounds (pyhash : String → Int)
    (industry location : String) (page : Int) (g0 : Nat) :
    (mock_scout_service pyhash industry location page g0).1.length = 10 ∧
    ∀ p, p ∈ (mock_scout_service pyhash industry location page g0).1 →
      (∃ r, p.rating = some r ∧ 7 / 2 ≤ r ∧ r ≤ 49 / 10) ∧
      (∃ c, p.review_count = some c ∧ 10 ≤ c ∧ c ≤ 500) := by
  constructor
  · exact mockN_length pyhash industry location page 10 _
  · intro p hp
    obtain ⟨g', rfl⟩ := mockN_mem pyhash industry location page 10 _ p hp
    obtain ⟨_, _, h3, h4, _, _⟩ := mockProfile_spec pyhash industry location page g'
    exact ⟨h3, h4⟩

/-- Witness for C4 at a concrete request, exhibiting the first returned
profile. -/
theorem C4_witness :
    (mock_scout_service (fun _ => 0) "plumbing" "Austin, TX" 1 0).1.length = 10 ∧
    (∃ r, ((mock_scout_service (fun _ => 0) "plumbing" "Austin, TX" 1 0).1.headD
        ⟨"", "", "", "", none, "", none, [], none, none, none⟩).rating = some r ∧
      7 / 2 ≤ r ∧ r ≤ 49 / 10) := by
  have h := C4_mock_count_and_bounds (fun _ => 0) "plumbing" "Austin, TX" 1 0
  refine ⟨h.1, ?_⟩
  have hmem : (mock_scout_service (fun _ => 0) "plumbing" "Austin, TX" 1 0).1.headD
      ⟨"", "", "", "", none, "", none, [], none, none, none⟩ ∈
      (mock_scout_service (fun _ => 0) "plumbing" "Austin, TX" 1 0).1 := by
    have hlen := h.1
    cases heq : (mock_scout_service (fun _ => 0) "plumbing" "Austin, TX" 1 0).1 with
    | nil => rw [heq] at hlen; simp at hlen
    | cons a l => simp
  exact (h.2 _ hmem).1

/-- C8: with no model client configured, the audit service returns, for any
attempt oracle, the fixed score-45 result whose pain points instruct setting
the API key; the trace records zero model calls. -/
theorem C8_no_model_audit (attempts : Nat → AuditAttempt) :
    generate_audit_and_message false attempts = some ⟨no_key_result, [], 0⟩ ∧
    no_key_result.audit_score = 45 ∧
    "Please set GEMINI_API_KEY" ∈ no_key_result.pain_points ∧
    no_key_result.outreach_message = "System Error: Please configure the AI backend." := by
  refine ⟨rfl, rfl, ?_, rfl⟩
  simp [no_key_result]

/-- C10: every synthetic profile has non-null email, source URL, rating and
review count (its phone is a required `str` field, non-null by schema), and
the one genuinely optional field, `website`, is `none` exactly when that
profile's website-presence draw `random.choice([True, False, False, False,
False])` came up `False`. -/
theorem C10_mock_optional_fields (pyhash : String → Int)
    (industry location : String) (page : Int) (g0 : Nat) :
    (∀ p, p ∈ (mock_scout_service pyhash industry location page g0).1 →
      p.email.isSome = true ∧ p.source_url.isSome = true ∧
      p.rating.isSome = true ∧ p.review_count.isSome = true) ∧
    (∀ g, (mockProfile pyhash industry location page g).1.website = none ↔
      (hasSiteChoice g).1 = false) := by
  constructor
  · intro p hp
    obtain ⟨g', rfl⟩ := mockN_mem pyhash industry location page 10 _ p hp
    obtain ⟨h1, h2, h3, h4, _, _⟩ := mockProfile_spec pyhash industry location page g'
    obtain ⟨r, hr, _⟩ := h3
    obtain ⟨c, hc, _⟩ := h4
    exact ⟨h1, h2, by rw [hr]; rfl, by rw [hc]; rfl⟩
  · intro g
    exact (mockProfile_spec pyhash industry location page g).2.2.2.2.1

/-- Witness for C10 at a concrete request, on the first returned profile. -/
theorem C10_witness :
    ((mock_scout_service (fun _ => 0) "plumbing" "Austin, TX" 1 0).1.headD
      ⟨"", "", "", "", none, "", none, [], none, none, none⟩).email.isSome = true ∧
    ((mockProfile (fun _ => 0) "plumbing" "Austin, TX" 1 7).1.website = none ↔
      (hasSiteChoice 7).1 = false) := by
  have h := C10_mock_optional_fields (fun _ => 0) "plumbing" "Austin, TX" 1 0
  have hmem : (mock_scout_service (fun _ => 0) "plumbing" "Austin, TX" 1 0).1.headD
      ⟨"", "", "", "", none, "", none, [], none, none, none⟩ ∈
      (mock_scout_service (fun _ => 0) "plumbing" "Austin, TX" 1 0).1 := by
    have hlen := mockN_length (fun _ => 0) "plumbing" "Austin, TX" 1 10
      (seedOfString ("plumbing" ++ "Austin, TX" ++ toString (1 : Int)))
    cases heq : (mock_scout_service (fun _ => 0) "plumbing" "Austin, TX" 1 0).1 with
    | nil =>
      rw [mock_scout_service] at heq
      rw [heq] at hlen
      simp at hlen
    | cons a l => simp
  exact ⟨(h.1 _ hmem).1, h.2 7⟩

/-- C5: the audit retry policy.  (a) Three consecutive rate-limit-signaling
failures (message containing `"429"` or `"Quota exceeded"`) yield the
terminal rate-limit result with score 0 after exactly two 60-unit sleeps and
three attempts.  (b) A non-rate-limit failure at attempt `k` (after `k`
rate-limited attempts) returns the generic-error result with score 0
immediately: no sleep for it (only the `k` earlier backoff sleeps) and no
further attempt (exactly `k + 1` calls). -/
theorem C5_audit_retry_policy :
    (∀ attempts : Nat → AuditAttempt,
      (∀ k, k < max_retries → ∃ e, attempts k = .error e ∧ isRateLimitMsg e = true) →
      generate_audit_and_message true attempts =
        some ⟨rate_limit_result, [retry_delay, retry_delay], 3⟩ ∧
      rate_limit_result.audit_score = 0) ∧
    (∀ (attempts : Nat → AuditAttempt) (k : Nat) (e : String), k < max_retries →
      (∀ j, j < k → ∃ e', attempts j = .error e' ∧ isRateLimitMsg e' = true) →
      attempts k = .error e → isRateLimitMsg e = false →
      generate_audit_and_message true attempts =
        some ⟨ai_error_result, List.replicate k retry_delay, k + 1⟩ ∧
      ai_error_result.audit_score = 0) := by
  constructor
  · intro attempts H
    obtain ⟨e0, h0, r0⟩ := H 0 (by decide)
    obtain ⟨e1, h1, r1⟩ := H 1 (by decide)
    obtain ⟨e2, h2, r2⟩ := H 2 (by decide)
    refine ⟨?_, rfl⟩
    simp [generate_audit_and_message, max_retries, auditLoop, h0, h1, h2, r0, r1, r2]
  · intro attempts k e hk hj hke hre
    refine ⟨?_, rfl⟩
    have hk3 : k < 3 := hk
    interval_cases k
    · simp [generate_audit_and_message, max_retries, auditLoop, hke, hre]
    · obtain ⟨e0, h0, r0⟩ := hj 0 (by decide)
      simp [generate_audit_and_message, max_retries, auditLoop, h0, r0, hke, hre,
        retry_delay]
    · obtain ⟨e0, h0, r0⟩ := hj 0 (by decide)
      obtain ⟨e1, h1, r1⟩ := hj 1 (by decide)
      simp [generate_audit_and_message, max_retries, auditLoop, h0, r0, h1, r1,
        hke, hre, retry_delay]

/-- Witness for C5: a model client that rate-limits on every attempt. -/
theorem C5_witness :
    generate_audit_and_message true (fun _ => .error "429 Resource exhausted") =
      some ⟨rate_limit_result, [retry_delay, retry_delay], 3⟩ ∧
    rate_limit_result.audit_score = 0 :=
  C5_audit_retry_policy.1 (fun _ => .error "429 Resource exhausted")
    (fun k _ => ⟨"429 Resource exhausted", rfl, by decide⟩)

/-- Unfolding of one loop iteration on a successful attempt. -/
theorem auditLoop_ok (attempts : Nat → AuditAttempt) (fuel attempt : Nat)
    (sleeps : List Nat) (calls : Nat) (r : AnalysisResult)
    (hA : attempts attempt = .ok r) :
    auditLoop attempts (fuel + 1) attempt sleeps calls =
      some ⟨r, sleeps, calls + 1⟩ := by
  rw [auditLoop, hA]

/-- Unfolding of one loop iteration on a failed attempt. -/
theorem auditLoop_err (attempts : Nat → AuditAttempt) (fuel attempt : Nat)
    (sleeps : List Nat) (calls : Nat) (e : String)
    (hA : attempts attempt = .error e) :
    auditLoop attempts (fuel + 1) attempt sleeps calls =
      if isRateLimitMsg e then
        if attempt < max_retries - 1 then
          auditLoop attempts fuel (attempt + 1) (sleeps ++ [retry_delay]) (calls + 1)
        else some ⟨rate_limit_result, sleeps, calls + 1⟩
      else some ⟨ai_error_result, sleeps, calls + 1⟩ := by
  rw [auditLoop, hA]

/-- Any trace the audit loop returns carries a terminal fallback result or
the payload of a successful attempt. -/
theorem auditLoop_cases (attempts : Nat → AuditAttempt) :
    ∀ fuel attempt sleeps calls t,
    auditLoop attempts fuel attempt sleeps calls = some t →
    t.result = rate_limit_result ∨ t.result = ai_error_result ∨
      ∃ k, attempts k = .ok t.result := by
  intro fuel
  induction fuel with
  | zero => intro attempt sleeps calls t h; simp [auditLoop] at h
  | succ fuel ih =>
    intro attempt sleeps calls t h
    cases hA : attempts attempt with
    | ok r =>
      rw [auditLoop_ok attempts fuel attempt sleeps calls r hA] at h
      simp only [Option.some.injEq] at h
      right; right
      exact ⟨attempt, by rw [hA, ← h]⟩
    | error e =>
      rw [auditLoop_err attempts fuel attempt sleeps calls e hA] at h
      by_cases hrl : isRateLimitMsg e = true
      · rw [if_pos hrl] at h
        by_cases hlt : attempt < max_retries - 1
        · rw [if_pos hlt] at h
          exact ih _ _ _ _ h
        · rw [if_neg hlt] at h
          simp only [Option.some.injEq] at h
          left; rw [← h]
      · rw [if_neg hrl] at h
        simp only [Option.some.injEq] at h
        right; left; rw [← h]

/-- C7 (amended): on the no-model path and both terminal error paths the
returned `audit_score` lies in `[0, 100]` (it is 45 or 0); on the success
path the parsed model response is returned unvalidated, so its score is
whatever integer the response carried. -/
theorem C7_amended_audit_score (mc : Bool) (attempts : Nat → AuditAttempt)
    (t : AuditTrace) (h : generate_audit_and_message mc attempts = some t) :
    (∃ k, attempts k = .ok t.result) ∨
    (0 ≤ t.result.audit_score ∧ t.result.audit_score ≤ 100) := by
  rw [generate_audit_and_message] at h
  split at h
  · rcases auditLoop_cases attempts _ _ _ _ _ h with h1 | h1 | h1
    · right; rw [h1]; exact ⟨by decide, by decide⟩
    · right; rw [h1]; exact ⟨by decide, by decide⟩
    · left; exact h1
  · right
    simp only [Option.some.injEq] at h
    rw [← h]
    exact ⟨by decide, by decide⟩

/-- Witness for C7 (amended) on the no-model path. -/
theorem C7_witness :
    (∃ k : Nat, (fun _ : Nat => AuditAttempt.error "x") k =
      .ok (AuditTrace.mk no_key_result [] 0).result) ∨
    (0 ≤ (AuditTrace.mk no_key_result [] 0).result.audit_score ∧
      (AuditTrace.mk no_key_result [] 0).result.audit_score ≤ 100) :=
  C7_amended_audit_score false (fun _ : Nat => .error "x") ⟨no_key_result, [], 0⟩ rfl

/-- C7 counterexample: a model response carrying `audit_score = 150` is
returned as-is, so the claimed `0 ≤ score ≤ 100` invariant fails on the
model-backed success path. -/
theorem C7_counterexample :
    ∃ t, generate_audit_and_message true
        (fun _ => .ok ⟨150, ["p"], ["i"], "msg"⟩) = some t ∧
      t.result.audit_score = 150 ∧ ¬ t.result.audit_score ≤ 100 :=
  ⟨⟨⟨150, ["p"], ["i"], "msg"⟩, [], 1⟩, rfl, rfl, by decide⟩

/-- Exactly one output profile per processable parsed item. -/
theorem filterMap_ok_length (industry location : String) :
    ∀ data : List JsonElem, data.all isOkElem = true →
    (data.filterMap (fun e => match e with
      | .ok it => some (processItem industry location it)
      | .bad _ => none)).length = data.length := by
  intro data
  induction data with
  | nil => intro _; rfl
  | cons e rest ih =>
    intro h
    simp only [List.all_cons, Bool.and_eq_true] at h
    cases e with
    | ok it => simp [List.filterMap_cons, ih h.2]
    | bad m => simp [isOkElem] at h

/-- C1 (amended): the synthetic variant always returns exactly 10 profiles,
and so does the model-backed variant whenever it falls back (no model
configured, model/parse exception, or a per-item processing exception); but
on a successful parse the model-backed variant returns one profile per
parsed item — `data.length`, not necessarily 10. -/
theorem C1_amended_scout_count :
    (∀ (pyhash : String → Int) industry location page g0,
      (mock_scout_service pyhash industry location page g0).1.length = 10) ∧
    (∀ (pyhash : String → Int) mr industry location page g0,
      ai_scout_service pyhash false mr industry location page g0 =
        mock_scout_service pyhash industry location page g0) ∧
    (∀ (pyhash : String → Int) msg industry location page g0,
      (ai_scout_service pyhash true (.error msg) industry location page g0).1.length
        = 10) ∧
    (∀ (pyhash : String → Int) data industry location page g0,
      data.all isOkElem = false →
      (ai_scout_service pyhash true (.parsed data) industry location page g0).1.length
        = 10) ∧
    (∀ (pyhash : String → Int) data industry location page g0,
      data.all isOkElem = true →
      (ai_scout_service pyhash true (.parsed data) industry location page g0).1.length
        = data.length) := by
  refine ⟨?_, ?_, ?_, ?_, ?_⟩
  · intro pyhash industry location page g0
    exact mockN_length pyhash industry location page 10 _
  · intro pyhash mr industry location page g0
    rfl
  · intro pyhash msg industry location page g0
    exact mockN_length pyhash industry location page 10 _
  · intro pyhash data industry location page g0 h
    simp only [ai_scout_service, Bool.not_true, Bool.false_eq_true, if_false, h]
    exact mockN_length pyhash industry location page 10 _
  · intro pyhash data industry location page g0 h
    simp only [ai_scout_service, Bool.not_true, Bool.false_eq_true, if_false, h,
      if_true]
    exact filterMap_ok_length industry location data h

/-- Witness for C1 (amended): a concrete synthetic call, and a concrete
successful model response with a single item. -/
theorem C1_witness :
    (mock_scout_service (fun _ => 0) "roofing" "Dallas, TX" 2 0).1.length = 10 ∧
    (ai_scout_service (fun _ => 0) true
      (.parsed [.ok ⟨some "Lone Star Roofing", none, none, none, none, none, none,
        none⟩]) "roofing" "Dallas, TX" 1 0).1.length = 1 := by
  have h := C1_amended_scout_count
  refine ⟨h.1 (fun _ => 0) "roofing" "Dallas, TX" 2 0, ?_⟩
  have h5 := h.2.2.2.2 (fun _ => 0)
    [.ok ⟨some "Lone Star Roofing", none, none, none, none, none, none, none⟩]
    "roofing" "Dallas, TX" 1 0 (by decide)
  simpa using h5

/-- C1 counterexample: with the model configured and a successfully parsed
response holding a single item, `scout` returns 1 profile, not 10. -/
theorem C1_counterexample :
    (ai_scout_service (fun _ => 0) true
      (.parsed [.ok ⟨some "Lone Star Roofing", none, none, none, none, none, none,
        none⟩]) "roofing" "Dallas, TX" 1 0).1.length ≠ 10 := by
  decide

/-- C6 (amended): in the synthetic variant the id is
`"biz_" + str(hash(name))`, a function of the profile's name (under the
session's string hash).  In the model-backed variant the id is `"biz_"` plus
the first 10 hex digits of the MD5 of the item's *supplied* name — which
agrees with the carried name whenever the response item has a `name` key;
when the key is absent the code hashes `""` while displaying `"Unknown"`, so
the id is not a function of the carried name (see the counterexample). -/
theorem C6_amended_id_from_name :
    (∀ (pyhash : String → Int) industry location page g0 p,
      p ∈ (mock_scout_service pyhash industry location page g0).1 →
      p.id = "biz_" ++ toString (pyhash p.name)) ∧
    (∀ industry location it n, it.name = some n →
      (processItem industry location it).name = n ∧
      (processItem industry location it).id =
        "biz_" ++ (⟨(md5hexChars (utf8Bytes n)).take 10⟩ : String)) := by
  constructor
  · intro pyhash industry location page g0 p hp
    obtain ⟨g', rfl⟩ := mockN_mem pyhash industry location page 10 _ p hp
    exact (mockProfile_spec pyhash industry location page g').2.2.2.2.2
  · intro industry location it n h
    simp [processItem, h]

/-- Witness for C6 (amended) at a concrete named item. -/
theorem C6_witness :
    (processItem "roofing" "Dallas, TX"
      ⟨some "Lone Star Roofing", none, none, none, none, none, none, none⟩).name =
      "Lone Star Roofing" ∧
    (processItem "roofing" "Dallas, TX"
      ⟨some "Lone Star Roofing", none, none, none, none, none, none, none⟩).id =
      "biz_" ++ (⟨(md5hexChars (utf8Bytes "Lone Star Roofing")).take 10⟩ : String) :=
  C6_amended_id_from_name.2 "roofing" "Dallas, TX"
    ⟨some "Lone Star Roofing", none, none, none, none, none, none, none⟩
    "Lone Star Roofing" rfl

set_option maxRecDepth 40000 in
/-- C6 counterexample: an item without a `name` key and an item named
`"Unknown"` produce profiles carrying the same name but different ids, so in
the model-backed variant the id is not a function of the carried name. -/
theorem C6_counterexample :
    (processItem "plumbing" "Austin, TX"
      ⟨none, none, none, none, none, none, none, none⟩).name =
    (processItem "plumbing" "Austin, TX"
      ⟨some "Unknown", none, none, none, none, none, none, none⟩).name ∧
    (processItem "plumbing" "Austin, TX"
      ⟨none, none, none, none, none, none, none, none⟩).id ≠
    (processItem "plumbing" "Austin, TX"
      ⟨some "Unknown", none, none, none, none, none, none, none⟩).id := by
  refine ⟨rfl, ?_⟩
  decide

/-- Upper-casing then lower-casing a character lower-cases it. -/
theorem pyToLower_pyToUpper (c : Char) :
    pyToLower (pyToUpper c) = pyToLower c := by
  rw [pyToUpper.eq_def]
  split <;> rfl

/-- `strip` removes an added leading and trailing blank. -/
theorem stripChars_pad (l : List Char) :
    stripChars (' ' :: l ++ [' ']) = stripChars l := by
  rw [stripChars, stripChars]
  rw [List.cons_append]
  rw [List.dropWhile_cons_of_pos (show isPySpace ' ' = true from rfl)]
  rw [List.dropWhile_append]
  split
  · rename_i hEmp
    have hNil : l.dropWhile isPySpace = [] := by
      simpa [List.isEmpty_iff] using hEmp
    rw [hNil]
    rfl
  · rw [List.reverse_append]
    simp only [List.reverse_cons, List.reverse_nil, List.nil_append,
      List.singleton_append]
    rw [List.dropWhile_cons_of_pos (show isPySpace ' ' = true from rfl)]

/-- C9: `verify_email` first normalizes (ASCII lower-casing, then stripping
surrounding whitespace) and answers `"invalid"` exactly when the MD5 of the
normalized string, read as an integer, is divisible by 5 — `"valid"`
otherwise.  Consequently the verdict is a pure function of the normalized
string: any two inputs with the same normalization (in particular an
upper-cased variant, or one padded with surrounding blanks) get the same
verdict, and repeated calls agree. -/
theorem C9_verify_email :
    (∀ e : String, verify_email e = "invalid" ↔
      md5int (utf8Enc (pyNormalize e.data)) % 5 = 0) ∧
    (∀ e : String, verify_email e = "valid" ↔
      ¬ md5int (utf8Enc (pyNormalize e.data)) % 5 = 0) ∧
    (∀ e1 e2 : String, pyNormalize e1.data = pyNormalize e2.data →
      verify_email e1 = verify_email e2) ∧
    (∀ e : String, verify_email (pyUpperS e) = verify_email e) ∧
    (∀ e : String, verify_email ⟨' ' :: e.data ++ [' ']⟩ = verify_email e) := by
  have hcong : ∀ e1 e2 : String, pyNormalize e1.data = pyNormalize e2.data →
      verify_email e1 = verify_email e2 := by
    intro e1 e2 h
    rw [verify_email, verify_email, h]
  refine ⟨?_, ?_, hcong, ?_, ?_⟩
  · intro e
    rw [verify_email]
    split
    · rename_i h
      exact ⟨fun _ => h, fun _ => rfl⟩
    · rename_i h
      exact ⟨fun hv => absurd hv (by decide), fun hc => absurd hc h⟩
  · intro e
    rw [verify_email]
    split
    · rename_i h
      exact ⟨fun hv => absurd hv (by decide), fun hc => absurd h hc⟩
    · rename_i h
      exact ⟨fun _ => h, fun _ => rfl⟩
  · intro e
    apply hcong
    show pyNormalize (e.data.map pyToUpper) = pyNormalize e.data
    rw [pyNormalize, pyNormalize]
    rw [List.map_map]
    congr 1
    exact List.map_congr_left (fun c _ => pyToLower_pyToUpper c)
  · intro e
    apply hcong
    show pyNormalize (' ' :: e.data ++ [' ']) = pyNormalize e.data
    rw [pyNormalize, pyNormalize]
    simp only [List.map_cons, List.map_append, List.map_nil]
    exact stripChars_pad _

/-- Witness for C9: concrete case/whitespace variants agree, and the
verdict matches the hash test at a concrete email. -/
theorem C9_witness :
    verify_email "A@b.C " = verify_email " a@b.c" ∧
    (verify_email "plumber@gmail.com" = "invalid" ↔
      md5int (utf8Enc (pyNormalize "plumber@gmail.com".data)) % 5 = 0) :=
  ⟨C9_verify_email.2.2.1 "A@b.C " " a@b.c" rfl,
   C9_verify_email.1 "plumber@gmail.com"⟩
